import Mathlib

/-!
Verification of the lifecycle orchestrator in
`pkg/commander/eventmesh/eventmesh.go` (the EventMesh `Commander`).

The Go file is straight-line sequencing code: `NewCommander` allocates the
struct, `Init` loads the environment configuration, `Start` builds the
collaborator pipeline in order and blocks in the handler serve loop, and
`Stop` invokes the stored cancellation function.  We embed it shallowly:

* `Commander` mirrors the Go struct (lines 39-45); the opaque collaborator
  handles (`logger`, `metricsCollector`, `opts`) are modelled as `Nat` ids,
  and the stored `context.CancelFunc` as `Option Nat` (`none` = the Go nil
  function pointer, `some g` = the cancel function of generation `g`
  produced by `context.WithCancel`).
* External collaborators (envconfig parsing, cluster access, informer cache
  sync, the handler serve loop) are outside this file's sources; their
  outcomes are supplied by a `World` record of oracles, and `startRun`
  consumes them exactly where the Go code calls them.
* `startRun` returns the outcome, the observable event trace, and the
  commander state after the call.  Go termination semantics are embedded
  explicitly: `log.Fatal`/`os.Exit` (the `OrDie` helpers) terminates the
  process WITHOUT running deferred calls, while a panic unwinds THROUGH
  deferred calls; an ordinary `return` also runs deferred calls.
-/

namespace EventMesh

/-- Modelled from the spec: the `env.EventMeshConfig` structure lives in
`pkg/env`, outside the sources given here.  Its fields are the ones the
spec lists ("listen port, backend publish URL, namespace, event-type
prefix, request timeout, feature flags") and the ones `Start` reads:
`Port`, `EventMeshPublishURL`, `EventMeshNamespace`, `EventTypePrefix`
(here `eventTypePfx`), `RequestTimeout`, `ApplicationCRDEnabled`.
The Go zero value of the struct has every field at its zero value. -/
structure EventMeshConfig where
  port : Nat
  publishURL : String
  eventMeshNamespace : String
  eventTypePfx : String
  requestTimeout : Nat
  applicationCRDEnabled : Bool
deriving DecidableEq, Repr

/-- The Go zero value of `env.EventMeshConfig`, as allocated by
`new(env.EventMeshConfig)` in `NewCommander` (line 52). -/
def zeroConfig : EventMeshConfig :=
  { port := 0, publishURL := "", eventMeshNamespace := "", eventTypePfx := ""
    requestTimeout := 0, applicationCRDEnabled := false }

/-- The `Commander` struct (eventmesh.go lines 39-45).  `cancel` is the
stored `context.CancelFunc`: `none` is Go's nil function pointer (calling
it panics), `some g` identifies the cancel function created by the `g`-th
`context.WithCancel` call. -/
structure Commander where
  cancel : Option Nat
  envCfg : EventMeshConfig
  logger : Nat
  metricsCollector : Nat
  opts : Nat
deriving DecidableEq, Repr

/-- `backend` constant (line 34). -/
def backend : String := "beb"

/-- `commanderName` constant (line 35): `backend + "-commander"`. -/
def commanderName : String := backend ++ "-commander"

/-- `NewCommander` (lines 48-55): allocates the struct with a zero-valued
config object and a nil cancel function. -/
def newCommander (opts metricsCollector logger : Nat) : Commander :=
  { cancel := none, envCfg := zeroConfig, logger := logger
    metricsCollector := metricsCollector, opts := opts }

/-- Observable events of one `Start` call, in program order.  Construction
events carry the configuration values the Go code passes to the
constructor, and the application-lister argument where one is passed
(`none` = Go nil lister). -/
inductive Ev where
  | constructReceiver (port : Nat)
  | createContext (gen : Nat)
  | constructAuthClient
  | constructSender (url : String)
  | getClusterConfig
  | constructDynamicClient
  | constructAppLister
  | constructLegacyTransformer (ns pfx : String) (lister : Option Unit)
  | constructProcessor (pfx ns : String)
  | waitCacheSync
  | cacheSynced
  | constructCleanerV1 (pfx : String) (lister : Option Unit)
  | constructEventMeshCleaner
  | constructCEBuilder (pfx ns : String) (lister : Option Unit)
  | serveHandler
  | closeIdleConnections
deriving DecidableEq, Repr

/-- The fatal `OrDie` exits `Start` can hit: `config.GetConfigOrDie`
(line 84) and `informers.WaitForCacheSyncOrDie` (line 114).  Both log and
exit the process (`os.Exit`), so deferred calls do not run. -/
inductive DieReason where
  | clusterConfig
  | cacheSync
deriving DecidableEq, Repr

/-- Panics `Start` or `Stop` can hit: `dynamic.NewForConfigOrDie` (line 89)
panics on error, and `Stop` panics when it calls a nil `cancel`. -/
inductive PanicReason where
  | dynamicClientConstruction
  | nilCancelFunc
deriving DecidableEq, Repr

/-- How one `Start` call ends.  `ok` and `err` are ordinary returns to the
caller (`nil` and a non-nil error); `died` is a process exit inside an
`OrDie` helper (Start never returns); `panicked` is an unwinding panic. -/
inductive StartOutcome where
  | ok
  | err (msg : String)
  | died (r : DieReason)
  | panicked (r : PanicReason)
deriving DecidableEq, Repr

/-- True exactly when `Start` actually returns a value to its caller. -/
def StartOutcome.returnsToCaller : StartOutcome → Bool
  | .ok => true
  | .err _ => true
  | .died _ => false
  | .panicked _ => false

/-- True exactly when the process exits inside an `OrDie` helper. -/
def StartOutcome.isDied : StartOutcome → Bool
  | .died _ => true
  | _ => false

/-- Result of one `Start` call: its outcome, the trace of observable
events, and the commander state after the call. -/
structure StartResult where
  outcome : StartOutcome
  trace : List Ev
  state : Commander
deriving DecidableEq, Repr

/-- Oracle outcomes of the external collaborators one `Start` call
consults, in the order the Go code calls them:
`clusterConfigOk` — whether `config.GetConfigOrDie` succeeds;
`dynamicClientOk` — whether `dynamic.NewForConfigOrDie` succeeds;
`cacheSynced` — whether the informer cache reports synced
(modelled from the spec: `informers.WaitForCacheSyncOrDie` lives in
`pkg/informers`, outside the sources here; per the spec it blocks until
synced and "fails fatally" with "OrDie semantics — process exits" when the
wait errors or the cache never syncs);
`serveResult` — what the handler's blocking `Start(ctx)` returns
(`none` = nil on shutdown, `some e` = error message `e`). -/
structure World where
  clusterConfigOk : Bool
  dynamicClientOk : Bool
  cacheSynced : Bool
  serveResult : Option String
deriving DecidableEq, Repr

/-- The error wrapping of a handler serve failure (line 143):
`xerrors.Errorf("failed to start handler for %s : %v", commanderName, err)`. -/
def wrapStartErr (e : String) : String :=
  "failed to start handler for " ++ commanderName ++ " : " ++ e

/-- The error wrapping of a configuration read failure (line 60):
`xerrors.Errorf("failed to read configuration for %s : %v", commanderName, err)`. -/
def wrapInitErr (e : String) : String :=
  "failed to read configuration for " ++ commanderName ++ " : " ++ e

/-- The tail of `Start` from the legacy-transformer construction (line 97)
onwards, parameterised by the application lister chosen in lines 87-94.
Covers: transformer (97-101), subscription informer factory, lister and
processor (104-111), cache-sync wait (114), cleaners (118-121), builder
(124-125), handler construction and blocking serve (128-144), and the
deferred `client.CloseIdleConnections()` (line 78) on every path that
returns. -/
def startTail (c1 : Commander) (cfg : EventMeshConfig) (w : World)
    (lister : Option Unit) (t1 : List Ev) : StartResult :=
  let t2 := t1 ++
    [Ev.constructLegacyTransformer cfg.eventMeshNamespace cfg.eventTypePfx lister,
     Ev.constructProcessor cfg.eventTypePfx cfg.eventMeshNamespace,
     Ev.waitCacheSync]
  if w.cacheSynced then
    let t3 := t2 ++
      [Ev.cacheSynced,
       Ev.constructCleanerV1 cfg.eventTypePfx lister,
       Ev.constructEventMeshCleaner,
       Ev.constructCEBuilder cfg.eventTypePfx cfg.eventMeshNamespace lister,
       Ev.serveHandler]
    match w.serveResult with
    | some e => ⟨.err (wrapStartErr e), t3 ++ [Ev.closeIdleConnections], c1⟩
    | none => ⟨.ok, t3 ++ [Ev.closeIdleConnections], c1⟩
  else
    ⟨.died .cacheSync, t2, c1⟩

/-- `Commander.Start` (lines 66-147).  `gen` is the fresh identity of the
cancel function the `context.WithCancel` call on line 74 creates; the
assignment `c.cancel = ...` there is unconditional — nothing reads the
previous value.  `config.GetConfigOrDie` (line 84) exits the process on
failure (deferred close does not run); `dynamic.NewForConfigOrDie`
(line 89) panics on failure (deferred close runs while unwinding). -/
def startRun (c : Commander) (w : World) (gen : Nat) : StartResult :=
  let cfg := c.envCfg
  let c1 : Commander := { c with cancel := some gen }
  let t0 : List Ev :=
    [Ev.constructReceiver cfg.port, Ev.createContext gen, Ev.constructAuthClient,
     Ev.constructSender cfg.publishURL, Ev.getClusterConfig]
  if w.clusterConfigOk then
    if cfg.applicationCRDEnabled then
      if w.dynamicClientOk then
        startTail c1 cfg w (some ())
          (t0 ++ [Ev.constructDynamicClient, Ev.constructAppLister])
      else
        ⟨.panicked .dynamicClientConstruction,
         t0 ++ [Ev.constructDynamicClient, Ev.closeIdleConnections], c1⟩
    else
      startTail c1 cfg w none t0
  else
    ⟨.died .clusterConfig, t0, c1⟩

/-- How one `Stop` call ends: a normal `return nil`, or a panic. -/
inductive StopOutcome where
  | returnedNil
  | panicked
deriving DecidableEq, Repr

/-- `Commander.Stop` (lines 150-153): `c.cancel(); return nil`.  Calling a
nil Go function panics; calling a real cancel function cancels the
lifecycle context (idempotently — a cancelled context stays cancelled, per
the documented `context.WithCancel` contract) and `Stop` returns nil.
The boolean argument and result model the lifecycle context's cancelled
flag; the commander itself is not written. -/
def stopRun (c : Commander) (ctxCancelled : Bool) :
    StopOutcome × Commander × Bool :=
  match c.cancel with
  | none => (.panicked, c, ctxCancelled)
  | some _ => (.returnedNil, c, true)

/-- `Commander.Init` (lines 58-63): `envconfig.Process("", c.envCfg)` fills
the config struct in place from the environment and may fail.  The
third-party parse outcome is the oracle `envResult`: `Except.ok cfg` means
the environment parsed to `cfg` (the struct is then fully populated with
it), `Except.error (e, leftoverCfg)` means parsing failed with message `e`
leaving the struct holding `leftoverCfg`.  On failure `Init` returns the
wrapped error (line 60); on success it returns nil. -/
def initRun (c : Commander)
    (envResult : Except (String × EventMeshConfig) EventMeshConfig) :
    Except String Unit × Commander :=
  match envResult with
  | .error (e, leftoverCfg) =>
      (.error (wrapInitErr e), { c with envCfg := leftoverCfg })
  | .ok cfg => (.ok (), { c with envCfg := cfg })

/-- `true` iff no `serveHandler` event occurs before the first
`cacheSynced` event of the trace. -/
def syncBeforeServe : List Ev → Bool
  | [] => true
  | Ev.cacheSynced :: _ => true
  | Ev.serveHandler :: _ => false
  | _ :: rest => syncBeforeServe rest

/-- Number of occurrences of the event `e` in a trace. -/
def countEv (e : Ev) : List Ev → Nat
  | [] => 0
  | x :: rest => (if x = e then 1 else 0) + countEv e rest

theorem countEv_append (e : Ev) (l1 l2 : List Ev) :
    countEv e (l1 ++ l2) = countEv e l1 + countEv e l2 := by
  induction l1 with
  | nil => simp [countEv]
  | cons x rest ih => simp [countEv, ih]; ring

/-- The state after any `Start` call is the input commander with only the
cancel function replaced by the fresh one. -/
theorem startRun_state (c : Commander) (w : World) (gen : Nat) :
    (startRun c w gen).state = { c with cancel := some gen } := by
  cases hcc : w.clusterConfigOk <;>
    cases hfl : c.envCfg.applicationCRDEnabled <;>
    cases hdc : w.dynamicClientOk <;>
    cases hcs : w.cacheSynced <;>
    cases hsr : w.serveResult <;>
    simp [startRun, startTail, hcc, hfl, hdc, hcs, hsr]

/-- C1 counterexample: on a commander fresh from `NewCommander` whose
`Start` was never called, `Stop` does not return nil — it panics, because
it calls the nil cancel function (`c.cancel()` on line 151 with `c.cancel`
still nil).  This refutes the claim that Stop is safe for every commander
produced by `NewCommander`. -/
theorem c1_stop_on_fresh_commander_panics :
    (stopRun (newCommander 0 0 0) false).1 = StopOutcome.panicked ∧
    (stopRun (newCommander 0 0 0) false).1 ≠ StopOutcome.returnedNil := by
  constructor
  · rfl
  · decide

/-- C1 (amended): calling `Stop` after `Start` has run — even a `Start`
that never completed initialization (died in an `OrDie` helper, panicked
constructing the dynamic client, or returned an error) — is safe: the
cancel function was stored on line 74 before any fallible step, so `Stop`
does not panic and returns nil.  Only a commander whose `Start` was never
called at all has the nil cancel function on which `Stop` panics. -/
theorem c1_stop_after_start_returns_nil (c : Commander) (w : World)
    (gen : Nat) (ctx : Bool) :
    (stopRun (startRun c w gen).state ctx).1 = StopOutcome.returnedNil := by
  rw [startRun_state]
  rfl

/-- C2 counterexample: a second `Start` call on a commander that already
holds a cancel function is not a no-op — it runs the whole sequence again
from the receiver construction and silently replaces the stored cancel
function (generation 1) with the new one (generation 2). -/
theorem c2_second_start_not_noop :
    (startRun (newCommander 0 0 0) ⟨true, true, true, none⟩ 1).state.cancel =
      some 1 ∧
    (startRun (startRun (newCommander 0 0 0) ⟨true, true, true, none⟩ 1).state
        ⟨true, true, true, none⟩ 2).state.cancel = some 2 ∧
    (startRun (startRun (newCommander 0 0 0) ⟨true, true, true, none⟩ 1).state
        ⟨true, true, true, none⟩ 2).trace.head? =
      some (Ev.constructReceiver 0) := by
  refine ⟨rfl, rfl, rfl⟩

/-- C2 (amended): `Start` has no double-start guard.  It never reads the
previously stored cancel function: its outcome and trace are the same
whatever `cancel` held before, every call re-runs the full sequence
(the trace always starts with the receiver construction of line 70), and
line 74 unconditionally replaces the stored cancel function with the fresh
one. -/
theorem c2_start_ignores_prior_cancel (c : Commander) (w : World)
    (gen : Nat) (g0 : Option Nat) :
    (startRun { c with cancel := g0 } w gen).outcome =
      (startRun c w gen).outcome ∧
    (startRun { c with cancel := g0 } w gen).trace =
      (startRun c w gen).trace ∧
    (startRun { c with cancel := g0 } w gen).state.cancel = some gen ∧
    (startRun c w gen).trace.head? = some (Ev.constructReceiver c.envCfg.port) := by
  refine ⟨?_, ?_, ?_, ?_⟩ <;>
    cases hcc : w.clusterConfigOk <;>
      cases hfl : c.envCfg.applicationCRDEnabled <;>
      cases hdc : w.dynamicClientOk <;>
      cases hcs : w.cacheSynced <;>
      cases hsr : w.serveResult <;>
      simp [startRun, startTail, hcc, hfl, hdc, hcs, hsr]

/-- C5: after `Start` has created the lifecycle context and stored its
cancel function, `Stop` is idempotent: the first call returns nil and
cancels the context, the second call also returns nil (no panic) and
leaves both the commander and the context's cancelled flag exactly as the
first call left them — no side effect observable beyond the first. -/
theorem c5_stop_idempotent_after_start (c : Commander) (w : World)
    (gen : Nat) (ctx : Bool) :
    (stopRun (startRun c w gen).state ctx).1 = StopOutcome.returnedNil ∧
    (stopRun (stopRun (startRun c w gen).state ctx).2.1
        (stopRun (startRun c w gen).state ctx).2.2).1 =
      StopOutcome.returnedNil ∧
    (stopRun (stopRun (startRun c w gen).state ctx).2.1
        (stopRun (startRun c w gen).state ctx).2.2).2 =
      (stopRun (startRun c w gen).state ctx).2 := by
  rw [startRun_state]
  refine ⟨rfl, rfl, rfl⟩

/-- C9: the frame of `Start` and `Stop`.  `Start` writes only the stored
cancel function: the state after any `Start` call is the input commander
with `cancel := some gen`, so the config, logger, metrics collector and
options fields are untouched; `Stop` writes no commander field at all. -/
theorem c9_start_stop_frame (c : Commander) (w : World) (gen : Nat)
    (ctx : Bool) :
    (startRun c w gen).state = { c with cancel := some gen } ∧
    (stopRun c ctx).2.1 = c := by
  refine ⟨startRun_state c w gen, ?_⟩
  cases hc : c.cancel <;> simp [stopRun, hc]

/-- C3 counterexample: with a cache-sync double that never reports synced
(`cacheSynced = false`), `Start` does not fail by returning an error — the
process exits inside `informers.WaitForCacheSyncOrDie` (line 114), so
`Start` never returns anything to its caller.  This refutes the claim that
a failed cache-sync wait makes Start "return an error". -/
theorem c3_sync_failure_not_an_error_return :
    (startRun (newCommander 0 0 0) ⟨true, true, false, none⟩ 1).outcome =
      StartOutcome.died DieReason.cacheSync ∧
    StartOutcome.returnsToCaller
      (startRun (newCommander 0 0 0) ⟨true, true, false, none⟩ 1).outcome =
      false := by
  refine ⟨rfl, rfl⟩

/-- C3 (amended): the cache-sync gate holds — in every execution of
`Start` no handler serving occurs before the informer cache reports
synced, and `Start` itself performs no Subscription Processor read at all
(the processor is only handed to the handler, whose serve starts after the
sync gate).  When the cache-sync wait errors or never reports synced,
`Start` neither hangs nor proceeds to the handler, but it also does not
return an error: the process terminates fatally inside the `OrDie` wait. -/
theorem c3_cache_sync_gate (c : Commander) (w : World) (gen : Nat)
    (hcc : w.clusterConfigOk = true)
    (hdc : c.envCfg.applicationCRDEnabled = true → w.dynamicClientOk = true) :
    syncBeforeServe (startRun c w gen).trace = true ∧
    (w.cacheSynced = false →
      (startRun c w gen).outcome = StartOutcome.died DieReason.cacheSync ∧
      Ev.serveHandler ∉ (startRun c w gen).trace) := by
  cases hfl : c.envCfg.applicationCRDEnabled
  · cases hcs : w.cacheSynced <;> cases hsr : w.serveResult <;>
      simp [startRun, startTail, hcc, hfl, hcs, hsr, syncBeforeServe]
  · have hdy := hdc hfl
    cases hcs : w.cacheSynced <;> cases hsr : w.serveResult <;>
      simp [startRun, startTail, hcc, hfl, hcs, hsr, hdy, syncBeforeServe]

/-- C3 witness: the gate theorem applied to a fresh commander and a world
whose informer cache never syncs. -/
theorem c3_cache_sync_gate_witness :
    syncBeforeServe
      (startRun (newCommander 0 0 0) ⟨true, true, false, none⟩ 1).trace =
      true ∧
    ((⟨true, true, false, none⟩ : World).cacheSynced = false →
      (startRun (newCommander 0 0 0) ⟨true, true, false, none⟩ 1).outcome =
        StartOutcome.died DieReason.cacheSync ∧
      Ev.serveHandler ∉
        (startRun (newCommander 0 0 0) ⟨true, true, false, none⟩ 1).trace) :=
  c3_cache_sync_gate (newCommander 0 0 0) ⟨true, true, false, none⟩ 1 rfl
    (by decide)

/-- C4: in every execution of `Start` that reaches the handler (cluster
config obtained, dynamic client constructed when needed, cache synced),
`Start` returns only after the blocking serve call returns — the trace
ends with the serve followed only by the deferred idle-connection close —
the serve is invoked exactly once (no retry), a serve error is returned as
exactly one error wrapped with the commander identity `beb-commander`
(line 143), and a nil serve result makes `Start` return nil (line 146). -/
theorem c4_start_returns_serve_result (c : Commander) (w : World) (gen : Nat)
    (hcc : w.clusterConfigOk = true)
    (hdc : c.envCfg.applicationCRDEnabled = true → w.dynamicClientOk = true)
    (hcs : w.cacheSynced = true) :
    (∃ pre, (startRun c w gen).trace =
        pre ++ [Ev.serveHandler, Ev.closeIdleConnections]) ∧
    countEv Ev.serveHandler (startRun c w gen).trace = 1 ∧
    (w.serveResult = none → (startRun c w gen).outcome = StartOutcome.ok) ∧
    (∀ e, w.serveResult = some e →
      (startRun c w gen).outcome = StartOutcome.err (wrapStartErr e)) ∧
    commanderName = "beb-commander" := by
  refine ⟨?_, ?_, ?_, ?_, by decide⟩
  · cases hfl : c.envCfg.applicationCRDEnabled <;> cases hsr : w.serveResult
    · exact ⟨[Ev.constructReceiver c.envCfg.port, Ev.createContext gen,
        Ev.constructAuthClient, Ev.constructSender c.envCfg.publishURL,
        Ev.getClusterConfig,
        Ev.constructLegacyTransformer c.envCfg.eventMeshNamespace
          c.envCfg.eventTypePfx none,
        Ev.constructProcessor c.envCfg.eventTypePfx c.envCfg.eventMeshNamespace,
        Ev.waitCacheSync, Ev.cacheSynced,
        Ev.constructCleanerV1 c.envCfg.eventTypePfx none,
        Ev.constructEventMeshCleaner,
        Ev.constructCEBuilder c.envCfg.eventTypePfx c.envCfg.eventMeshNamespace
          none],
        by simp [startRun, startTail, hcc, hfl, hcs, hsr]⟩
    · exact ⟨[Ev.constructReceiver c.envCfg.port, Ev.createContext gen,
        Ev.constructAuthClient, Ev.constructSender c.envCfg.publishURL,
        Ev.getClusterConfig,
        Ev.constructLegacyTransformer c.envCfg.eventMeshNamespace
          c.envCfg.eventTypePfx none,
        Ev.constructProcessor c.envCfg.eventTypePfx c.envCfg.eventMeshNamespace,
        Ev.waitCacheSync, Ev.cacheSynced,
        Ev.constructCleanerV1 c.envCfg.eventTypePfx none,
        Ev.constructEventMeshCleaner,
        Ev.constructCEBuilder c.envCfg.eventTypePfx c.envCfg.eventMeshNamespace
          none],
        by simp [startRun, startTail, hcc, hfl, hcs, hsr]⟩
    · exact ⟨[Ev.constructReceiver c.envCfg.port, Ev.createContext gen,
        Ev.constructAuthClient, Ev.constructSender c.envCfg.publishURL,
        Ev.getClusterConfig, Ev.constructDynamicClient, Ev.constructAppLister,
        Ev.constructLegacyTransformer c.envCfg.eventMeshNamespace
          c.envCfg.eventTypePfx (some ()),
        Ev.constructProcessor c.envCfg.eventTypePfx c.envCfg.eventMeshNamespace,
        Ev.waitCacheSync, Ev.cacheSynced,
        Ev.constructCleanerV1 c.envCfg.eventTypePfx (some ()),
        Ev.constructEventMeshCleaner,
        Ev.constructCEBuilder c.envCfg.eventTypePfx c.envCfg.eventMeshNamespace
          (some ())],
        by simp [startRun, startTail, hcc, hfl, hcs, hsr, hdc hfl]⟩
    · exact ⟨[Ev.constructReceiver c.envCfg.port, Ev.createContext gen,
        Ev.constructAuthClient, Ev.constructSender c.envCfg.publishURL,
        Ev.getClusterConfig, Ev.constructDynamicClient, Ev.constructAppLister,
        Ev.constructLegacyTransformer c.envCfg.eventMeshNamespace
          c.envCfg.eventTypePfx (some ()),
        Ev.constructProcessor c.envCfg.eventTypePfx c.envCfg.eventMeshNamespace,
        Ev.waitCacheSync, Ev.cacheSynced,
        Ev.constructCleanerV1 c.envCfg.eventTypePfx (some ()),
        Ev.constructEventMeshCleaner,
        Ev.constructCEBuilder c.envCfg.eventTypePfx c.envCfg.eventMeshNamespace
          (some ())],
        by simp [startRun, startTail, hcc, hfl, hcs, hsr, hdc hfl]⟩
  · cases hfl : c.envCfg.applicationCRDEnabled
    · cases hsr : w.serveResult <;>
        simp [startRun, startTail, hcc, hfl, hcs, hsr, countEv, countEv_append]
    · have hdy := hdc hfl
      cases hsr : w.serveResult <;>
        simp [startRun, startTail, hcc, hfl, hcs, hsr, hdy, countEv,
          countEv_append]
  · intro hsr
    cases hfl : c.envCfg.applicationCRDEnabled
    · simp [startRun, startTail, hcc, hfl, hcs, hsr]
    · have hdy := hdc hfl
      simp [startRun, startTail, hcc, hfl, hcs, hsr, hdy]
  · intro e hsr
    cases hfl : c.envCfg.applicationCRDEnabled
    · simp [startRun, startTail, hcc, hfl, hcs, hsr]
    · have hdy := hdc hfl
      simp [startRun, startTail, hcc, hfl, hcs, hsr, hdy]

/-- C4 witness: the serve-result theorem applied to a fresh commander and
a world whose handler serve fails with message "boom". -/
theorem c4_start_returns_serve_result_witness :
    (∃ pre,
      (startRun (newCommander 0 0 0) ⟨true, true, true, some "boom"⟩ 1).trace =
        pre ++ [Ev.serveHandler, Ev.closeIdleConnections]) ∧
    countEv Ev.serveHandler
      (startRun (newCommander 0 0 0) ⟨true, true, true, some "boom"⟩ 1).trace =
      1 ∧
    ((⟨true, true, true, some "boom"⟩ : World).serveResult = none →
      (startRun (newCommander 0 0 0) ⟨true, true, true, some "boom"⟩ 1).outcome =
        StartOutcome.ok) ∧
    (∀ e, (⟨true, true, true, some "boom"⟩ : World).serveResult = some e →
      (startRun (newCommander 0 0 0) ⟨true, true, true, some "boom"⟩ 1).outcome =
        StartOutcome.err (wrapStartErr e)) ∧
    commanderName = "beb-commander" :=
  c4_start_returns_serve_result (newCommander 0 0 0)
    ⟨true, true, true, some "boom"⟩ 1 rfl (by decide) rfl

/-- C6: with the Application-CRD feature flag disabled, `Start` constructs
no dynamic client and no application lister (lines 87-94), yet still
constructs the Legacy Transformer (line 97), the Event-Type Cleaner
(line 118) and the CloudEvent Builder (line 124), passing each the nil
lister; the absence of the lister causes no error — `Start` still returns
normally to its caller (outcome determined by the serve result alone). -/
theorem c6_nil_lister_tolerated (c : Commander) (w : World) (gen : Nat)
    (hflag : c.envCfg.applicationCRDEnabled = false)
    (hcc : w.clusterConfigOk = true) (hcs : w.cacheSynced = true) :
    Ev.constructDynamicClient ∉ (startRun c w gen).trace ∧
    Ev.constructAppLister ∉ (startRun c w gen).trace ∧
    Ev.constructLegacyTransformer c.envCfg.eventMeshNamespace
      c.envCfg.eventTypePfx none ∈ (startRun c w gen).trace ∧
    Ev.constructCleanerV1 c.envCfg.eventTypePfx none ∈
      (startRun c w gen).trace ∧
    Ev.constructCEBuilder c.envCfg.eventTypePfx c.envCfg.eventMeshNamespace
      none ∈ (startRun c w gen).trace ∧
    StartOutcome.returnsToCaller (startRun c w gen).outcome = true := by
  cases hsr : w.serveResult <;>
    simp [startRun, startTail, hflag, hcc, hcs, hsr,
      StartOutcome.returnsToCaller]

/-- C6 witness: the nil-lister theorem applied to a fresh commander
(whose zero-valued config has the feature flag disabled) and a world that
reaches the handler. -/
theorem c6_nil_lister_tolerated_witness :
    Ev.constructDynamicClient ∉
      (startRun (newCommander 0 0 0) ⟨true, true, true, none⟩ 1).trace ∧
    Ev.constructAppLister ∉
      (startRun (newCommander 0 0 0) ⟨true, true, true, none⟩ 1).trace ∧
    Ev.constructLegacyTransformer
      (newCommander 0 0 0).envCfg.eventMeshNamespace
      (newCommander 0 0 0).envCfg.eventTypePfx none ∈
      (startRun (newCommander 0 0 0) ⟨true, true, true, none⟩ 1).trace ∧
    Ev.constructCleanerV1 (newCommander 0 0 0).envCfg.eventTypePfx none ∈
      (startRun (newCommander 0 0 0) ⟨true, true, true, none⟩ 1).trace ∧
    Ev.constructCEBuilder (newCommander 0 0 0).envCfg.eventTypePfx
      (newCommander 0 0 0).envCfg.eventMeshNamespace none ∈
      (startRun (newCommander 0 0 0) ⟨true, true, true, none⟩ 1).trace ∧
    StartOutcome.returnsToCaller
      (startRun (newCommander 0 0 0) ⟨true, true, true, none⟩ 1).outcome =
      true :=
  c6_nil_lister_tolerated (newCommander 0 0 0) ⟨true, true, true, none⟩ 1
    rfl rfl rfl

/-- C7: the `Init` error contract.  For every failing parse of the
environment configuration, `Init` returns the non-nil error wrapped with
the commander identity (line 60); for every successful parse, `Init`
returns nil and the commander's config object holds the fully populated
parsed configuration (the in-place fill of `envconfig.Process`). -/
theorem c7_init_error_contract (c : Commander) (e : String)
    (leftoverCfg cfg : EventMeshConfig) :
    (initRun c (Except.error (e, leftoverCfg))).1 =
      Except.error (wrapInitErr e) ∧
    (initRun c (Except.ok cfg)).1 = Except.ok () ∧
    (initRun c (Except.ok cfg)).2.envCfg = cfg ∧
    wrapInitErr e = "failed to read configuration for beb-commander : " ++ e := by
  refine ⟨rfl, rfl, rfl, ?_⟩
  rfl

/-- C8 counterexample: a run in which `Start` constructs the auth client
and then hits the fatal cache-sync `OrDie` exit never closes the client's
idle connections — `os.Exit` does not run the deferred
`client.CloseIdleConnections()` (line 78).  This refutes the claim that
the close happens exactly once on every exit path including early
failure. -/
theorem c8_ordie_exit_skips_close :
    Ev.constructAuthClient ∈
      (startRun (newCommander 0 0 0) ⟨true, true, false, none⟩ 1).trace ∧
    countEv Ev.closeIdleConnections
      (startRun (newCommander 0 0 0) ⟨true, true, false, none⟩ 1).trace =
      0 := by
  refine ⟨by decide, rfl⟩

/-- C8 (amended): the auth client is constructed in every run of `Start`,
and its idle connections are closed exactly once on every path on which
`Start` actually returns to its caller (normal return and serve-error
return) and on the panic path (a panic unwinds through the deferred
close); on the fatal `OrDie` paths (cluster-config fetch, cache-sync
wait) the process exits without running the deferred close, so the close
count is zero there. -/
theorem c8_close_on_return_paths (c : Commander) (w : World) (gen : Nat) :
    Ev.constructAuthClient ∈ (startRun c w gen).trace ∧
    countEv Ev.closeIdleConnections (startRun c w gen).trace =
      (if StartOutcome.isDied (startRun c w gen).outcome then 0 else 1) := by
  cases hcc : w.clusterConfigOk <;>
    cases hfl : c.envCfg.applicationCRDEnabled <;>
    cases hdc : w.dynamicClientOk <;>
    cases hcs : w.cacheSynced <;>
    cases hsr : w.serveResult <;>
    simp [startRun, startTail, hcc, hfl, hdc, hcs, hsr, countEv,
      countEv_append, StartOutcome.isDied]

/-- C10: `Start` performs no check that `Init` was ever called.  A
commander fresh from `NewCommander` carries the allocated, zero-valued
config object, and `Start` on it proceeds with that zero-valued
configuration instead of failing: it constructs the receiver on port 0
and the sender against the empty publish URL, reaches the handler serve,
and returns to its caller with the outcome the serve dictates. -/
theorem c10_start_without_init_proceeds (o m l : Nat) (w : World) (gen : Nat)
    (hcc : w.clusterConfigOk = true) (hcs : w.cacheSynced = true) :
    (newCommander o m l).envCfg = zeroConfig ∧
    Ev.constructReceiver 0 ∈ (startRun (newCommander o m l) w gen).trace ∧
    Ev.constructSender "" ∈ (startRun (newCommander o m l) w gen).trace ∧
    Ev.serveHandler ∈ (startRun (newCommander o m l) w gen).trace ∧
    StartOutcome.returnsToCaller
      (startRun (newCommander o m l) w gen).outcome = true := by
  refine ⟨rfl, ?_, ?_, ?_, ?_⟩ <;>
    cases hsr : w.serveResult <;>
      simp [startRun, startTail, newCommander, zeroConfig, hcc, hcs, hsr,
        StartOutcome.returnsToCaller]

/-- C10 witness: the theorem applied to a fresh commander and a world
that reaches the handler and serves until clean shutdown. -/
theorem c10_start_without_init_proceeds_witness :
    (newCommander 0 0 0).envCfg = zeroConfig ∧
    Ev.constructReceiver 0 ∈
      (startRun (newCommander 0 0 0) ⟨true, true, true, none⟩ 1).trace ∧
    Ev.constructSender "" ∈
      (startRun (newCommander 0 0 0) ⟨true, true, true, none⟩ 1).trace ∧
    Ev.serveHandler ∈
      (startRun (newCommander 0 0 0) ⟨true, true, true, none⟩ 1).trace ∧
    StartOutcome.returnsToCaller
      (startRun (newCommander 0 0 0) ⟨true, true, true, none⟩ 1).outcome =
      true :=
  c10_start_without_init_proceeds 0 0 0 ⟨true, true, true, none⟩ 1 rfl rfl

end EventMesh
